import Mathlib

/-!
Shallow embedding of the configuration-driven pipeline loader of
`pyannote-audio-modified` (files `src/pyannote/audio/core/pipeline.py` and
`src/pyannote/audio/pipelines/utils/getter.py`), together with theorems
settling the behavioural claims about it.

External collaborators (torch, the `pyannote.pipeline` base class, the
`pyannote.database` FileFinder, the `Inference` class) are modelled as
oracles or as small data structures exposing exactly the narrow interface
the embedded code consumes.
-/

namespace PyannoteAudio

/-- Python exception values observable from the embedded code.  Each
constructor corresponds to one built-in exception class the source raises
or catches; `otherError` stands for any further exception an external
collaborator may raise. -/
inductive Exc
  | fileNotFoundError (msg : String)
  | keyError (key : String)
  | typeError (msg : String)
  | valueError (msg : String)
  | runtimeError (msg : String)
  | notImplementedError
  | attributeError (msg : String)
  | otherError (msg : String)
deriving DecidableEq, Repr

/-- Association lists with string keys: the embedding of Python `dict` /
`OrderedDict`.  Keys are unique in every state reachable from an empty
dict through `insert` and `erase`, matching Python dictionaries. -/
abbrev AList (α : Type) := List (String × α)

/-- Embedding of `d[k]` lookup / `d.get(k)`: value at the first occurrence
of key `k`. -/
def AList.lookup {α : Type} : AList α → String → Option α
  | [], _ => none
  | (k', v') :: rest, k => if k' = k then some v' else AList.lookup rest k

/-- Embedding of `d[k] = v` on a dict: replace the value at `k` in place if
present, otherwise append the new binding at the end (Python dicts keep
insertion order). -/
def AList.insert {α : Type} : AList α → String → α → AList α
  | [], k, v => [(k, v)]
  | (k', v') :: rest, k, v =>
      if k' = k then (k, v) :: rest else (k', v') :: AList.insert rest k v

/-- Embedding of `del d[k]` (guarded by `k in d` in the source): remove the
first binding of `k`, leave the dict unchanged when `k` is absent. -/
def AList.erase {α : Type} : AList α → String → AList α
  | [], _ => []
  | (k', v') :: rest, k => if k' = k then rest else (k', v') :: AList.erase rest k

/-- Embedding of `k in d`. -/
def AList.hasKey {α : Type} (d : AList α) (k : String) : Bool :=
  (AList.lookup d k).isSome

theorem AList.lookup_insert_self {α : Type} (d : AList α) (k : String) (v : α) :
    AList.lookup (AList.insert d k v) k = some v := by
  induction d with
  | nil => simp [AList.insert, AList.lookup]
  | cons hd tl ih =>
    by_cases h : hd.1 = k
    · simp [AList.insert, h, AList.lookup]
    · simp [AList.insert, h, AList.lookup, ih]

theorem AList.lookup_eq_none_of_not_mem_keys {α : Type} (d : AList α) (k : String)
    (h : k ∉ d.map Prod.fst) : AList.lookup d k = none := by
  induction d with
  | nil => simp [AList.lookup]
  | cons hd tl ih =>
    simp only [List.map_cons, List.mem_cons, not_or] at h
    have hne : hd.1 ≠ k := fun he => h.1 he.symm
    simp only [AList.lookup, if_neg hne]
    exact ih h.2

theorem AList.not_mem_keys_erase_self {α : Type} (d : AList α) (k : String)
    (hnd : (d.map Prod.fst).Nodup) : k ∉ (AList.erase d k).map Prod.fst := by
  induction d with
  | nil => simp [AList.erase]
  | cons hd tl ih =>
    simp only [List.map_cons, List.nodup_cons] at hnd
    by_cases h : hd.1 = k
    · simp only [AList.erase, if_pos h]
      intro hk
      exact hnd.1 (h ▸ hk)
    · simp only [AList.erase, if_neg h, List.map_cons, List.mem_cons, not_or]
      exact ⟨fun he => h he.symm, ih hnd.2⟩

theorem AList.lookup_erase_self {α : Type} (d : AList α) (k : String)
    (hnd : (d.map Prod.fst).Nodup) :
    AList.lookup (AList.erase d k) k = none :=
  AList.lookup_eq_none_of_not_mem_keys _ _ (AList.not_mem_keys_erase_self d k hnd)

/-- Embedding of `torch.device`: the CPU or an indexed accelerator
(`cuda:index`). -/
inductive TorchDevice
  | cpu
  | cuda (index : Nat)
deriving DecidableEq, Repr

/-- Embedding of `get_devices` (getter.py lines 152-178).  `num_gpus`
stands for `torch.cuda.device_count()`, `needs` for the optional argument.
`devices * needs` is list repetition; the `zip(range(needs),
itertools.cycle(devices))` comprehension materialises `needs` elements,
the `i`-th being `devices[i % len(devices)]`. -/
def get_devices (num_gpus : Nat) (needs : Option Nat) : List TorchDevice :=
  if num_gpus = 0 then
    let devices := [TorchDevice.cpu]
    match needs with
    | none => devices
    | some n => (List.replicate n devices).flatten
  else
    let devices := (List.range num_gpus).map TorchDevice.cuda
    match needs with
    | none => devices
    | some n => (List.range n).map fun i => devices.getD (i % devices.length) TorchDevice.cpu

/-- Embedding of a `torch.nn.Module` as consumed by this code: we track its
identity, its train/eval flag (`training`, `True` on a freshly constructed
module, set to `False` by `Module.eval()`), and the device it was last moved
to. -/
structure TorchModule where
  id : Nat := 0
  training : Bool := true
  device : Option TorchDevice := none
deriving DecidableEq, Repr

/-- Embedding of `module.eval()`: clears the training flag. -/
def TorchModule.evalMode (m : TorchModule) : TorchModule :=
  { m with training := false }

/-- The filesystem and `torch.load`, as the oracles the loaders consult:
`isfile` embeds `os.path.isfile`, and `load` embeds `torch.load`, returning
the module exactly as it was stored at the given path. -/
structure FileSystem where
  isfile : String → Bool
  load : String → TorchModule

/-- Embedding of `os.path.join(a, b)` for a relative second component. -/
def os_path_join (a b : String) : String :=
  if a = "" then b else if a.endsWith "/" then a ++ b else a ++ "/" ++ b

/-- The input shapes `get_model` dispatches on: `str`, `Mapping` (here: an
association list of string values, consulted only for its `checkpoint`
key), or anything else. -/
inductive ModelSpec
  | str (path : String)
  | mapping (entries : AList String)
  | other
deriving DecidableEq, Repr

/-- Embedding of `get_model` (getter.py lines 34-68).  Note that the
source's `model.eval()` on line 67 is unreachable: every branch of the
preceding `if`/`elif`/`else` either returns or raises, so the embedding
returns the loaded module exactly as `torch.load` produced it.  In the
mapping branch, `if checkpoint and os.path.isfile(checkpoint)` treats a
missing key and an empty string as falsy. -/
def get_model (fs : FileSystem) (model : ModelSpec) : Except Exc TorchModule :=
  match model with
  | .str path =>
      if fs.isfile path then .ok (fs.load path)
      else
        let model_path := os_path_join path "model.pth"
        if fs.isfile model_path then .ok (fs.load model_path)
        else .error (.fileNotFoundError
          ("No model file found at path: " ++ path ++ " or within directory as model.pth"))
  | .mapping entries =>
      match AList.lookup entries "checkpoint" with
      | some checkpoint =>
          if checkpoint = "" then
            .error (.fileNotFoundError "No model found at path specified by checkpoint")
          else if fs.isfile checkpoint then .ok (fs.load checkpoint)
          else .error (.fileNotFoundError "No model found at path specified by checkpoint")
      | none => .error (.fileNotFoundError "No model found at path specified by checkpoint")
  | .other =>
      .error (.typeError "Model input must be a string path or a dictionary with a checkpoint key.")

/-- Embedding of an `Inference` wrapper object; only its identity matters
to the embedded code, plus the device it was last moved to. -/
structure InferenceObj where
  id : Nat := 0
  device : Option TorchDevice := none
deriving DecidableEq, Repr

/-- The external `Inference` class constructor (pyannote.audio.core.inference,
outside this repository), as the narrow interface `get_inference` consumes:
one constructor per call shape appearing in the source
(`Inference(model)`, `Inference(checkpoint)`, `Inference(**mapping)`). -/
structure InferenceCtor where
  ofModel : TorchModule → InferenceObj
  ofText : String → InferenceObj
  ofKwargs : AList String → InferenceObj

/-- The input shapes `get_inference` dispatches on (the `PipelineInference`
union plus anything else, which raises `TypeError`). -/
inductive InferenceSpec
  | inference (i : InferenceObj)
  | model (m : TorchModule)
  | text (s : String)
  | mapping (kwargs : AList String)
  | other
deriving Repr

/-- Embedding of `get_inference` (getter.py lines 74-116): an `Inference`
instance is returned as is; a model or string is wrapped via the
`Inference` constructor; a mapping is expanded as keyword arguments;
anything else raises `TypeError`. -/
def get_inference (ctor : InferenceCtor) : InferenceSpec → Except Exc InferenceObj
  | .inference i => .ok i
  | .model m => .ok (ctor.ofModel m)
  | .text s => .ok (ctor.ofText s)
  | .mapping kwargs => .ok (ctor.ofKwargs kwargs)
  | .other => .error (.typeError "Unsupported type for loading inference")

/-- The three preprocessor kinds built by `from_pretrained` step 9: a
dynamically resolved class instance, a `FileFinder` bound to a database
descriptor path, or a literal path template string. -/
inductive Preprocessor
  | dynamicInstance (className : String) (params : Option String)
  | fileFinder (databaseYml : String)
  | template (s : String)
deriving DecidableEq, Repr

/-- The shapes a preprocessor spec can take in the YAML descriptor: a
mapping (values abstracted to strings; only the `name` value and the
presence of `params` matter to the embedded code) or a plain string. -/
inductive PreprocessorSpec
  | dict (entries : AList String)
  | str (s : String)
deriving DecidableEq, Repr

/-- The external collaborators the preprocessors loop calls into, as
oracles over their full outcome: `getClassByName` is
`get_class_by_name(name, default_module_name="pyannote.audio")` (which
can fail, e.g. with an `ImportError`-like error, and then propagates);
`constructClass` is `Klass(**params)` (which can also fail and
propagate); `fileFinderNew` is `FileFinder(database_yml=s)`, whose
failure is an arbitrary exception — `FileNotFoundError` when the path
does not name an existing database descriptor, but possibly another
class, e.g. a YAML error on an existing malformed file. -/
structure PreprocessorEnv where
  getClassByName : String → Except Exc Unit
  constructClass : String → Option String → Except Exc Unit
  fileFinderNew : String → Except Exc Unit

/-- Embedding of the loop body of `from_pretrained` for one preprocessor
spec (pipeline.py lines 69-86).  A dict is always routed to dynamic-class
construction first (`preprocessor["name"]` raises `KeyError` when absent,
and failures of `get_class_by_name` or of `Klass(**params)` propagate);
for a non-dict spec, `FileFinder(database_yml=preprocessor)` is
attempted, and the `try`/`except FileNotFoundError` at lines 77-86
keeps the spec as a literal template exactly when that construction
raises `FileNotFoundError` — any other construction failure
propagates. -/
def build_preprocessor (env : PreprocessorEnv) :
    PreprocessorSpec → Except Exc Preprocessor
  | .dict entries =>
      match AList.lookup entries "name" with
      | none => .error (.keyError "name")
      | some className =>
          match env.getClassByName className with
          | .error e => .error e
          | .ok _ =>
              match env.constructClass className (AList.lookup entries "params") with
              | .error e => .error e
              | .ok _ => .ok (.dynamicInstance className (AList.lookup entries "params"))
  | .str s =>
      match env.fileFinderNew s with
      | .ok _ => .ok (.fileFinder s)
      | .error (.fileNotFoundError _) => .ok (.template s)
      | .error e => .error e

/-- Embedding of the whole `preprocessors` loop: builds the name-keyed
mapping in descriptor order, propagating the first failure. -/
def build_preprocessors (env : PreprocessorEnv)
    (specs : AList PreprocessorSpec) : Except Exc (AList Preprocessor) :=
  specs.foldlM
    (fun acc kv => do
      let p ← build_preprocessor env kv.2
      pure (AList.insert acc kv.1 p))
    []

/-- Embedding of a sub-pipeline object stored in the `_pipelines` table by
the external base class; `hasTo` embeds `hasattr(pipeline, "to")`, and
`device` records the device its own transfer was last called with. -/
structure SubPipeline where
  id : Nat := 0
  hasTo : Bool := true
  device : Option TorchDevice := none
deriving DecidableEq, Repr

/-- The runtime classes a value assigned to a pipeline attribute can have,
as `__setattr__` discriminates them: an `nn.Module`, a `BaseInference`, or
any other value (scalars, strings, `torch.device` objects, the
preprocessors mapping), which default attribute storage accepts. -/
inductive AttrValue
  | module (m : TorchModule)
  | inference (i : InferenceObj)
  | scalar (n : Int)
  | str (s : String)
  | device (d : TorchDevice)
  | preprocMap (m : AList Preprocessor)
deriving DecidableEq, Repr

/-- The pipeline object's state: `dict` is its plain `__dict__` storage;
the five tracking tables (`_parameters`, `_instantiated`, `_pipelines`
from the external base class, `_models`, `_inferences` from this
repository's subclass) are `none` before the corresponding `__init__`
has run, mirroring `self.__dict__.get(...)` returning `None`. -/
structure PipelineState where
  dict : AList AttrValue := []
  parameters : Option (AList AttrValue) := none
  instantiatedTbl : Option (AList AttrValue) := none
  pipelines : Option (AList SubPipeline) := none
  models : Option (AList TorchModule) := none
  inferences : Option (AList InferenceObj) := none
deriving DecidableEq, Repr

/-- Embedding of `Pipeline.__init__` (pipeline.py lines 101-104) on top of
an already-initialized base class: `_models` and `_inferences` become
empty ordered dicts (the base `__init__` having set up the other
tables). -/
def initPipeline : PipelineState :=
  { dict := [], parameters := some [], instantiatedTbl := some [],
    pipelines := some [], models := some [], inferences := some [] }

/-- Modelled from the spec: the external base class
`pyannote.pipeline.Pipeline.__setattr__` (not part of this repository),
reached by `super().__setattr__(name, value)` for values that are neither
modules nor inference wrappers — per spec section 4.2 the pipeline then
"delegates to default attribute storage", i.e. stores the value as a plain
attribute.  Whatever the base class does, it predates and cannot touch the
subclass-only `_models` / `_inferences` tables. -/
def superSetattr (p : PipelineState) (name : String) (value : AttrValue) : PipelineState :=
  { p with dict := AList.insert p.dict name value }

/-- Helper for `remove_from(*dicts)` on an optional table. -/
def eraseOpt {α : Type} (t : Option (AList α)) (name : String) : Option (AList α) :=
  t.map (fun d => AList.erase d name)

/-- Embedding of `Pipeline.__setattr__` (pipeline.py lines 127-165).  An
`nn.Module` value is stored in `_models` (raising `AttributeError` when
that table does not exist yet) after `remove_from` deletes any prior
binding of `name` from `__dict__`, `_inferences`, `_parameters`,
`_instantiated` and `_pipelines`; symmetrically for a `BaseInference`
value and `_inferences`; every other value falls through to the base
class setter. -/
def Pipeline.setattr (p : PipelineState) (name : String) (value : AttrValue) :
    Except Exc PipelineState :=
  match value with
  | .module m =>
      match p.models with
      | none => .error (.attributeError "cannot assign models before Pipeline.__init__() call")
      | some models =>
          .ok { p with
                dict := AList.erase p.dict name,
                inferences := eraseOpt p.inferences name,
                parameters := eraseOpt p.parameters name,
                instantiatedTbl := eraseOpt p.instantiatedTbl name,
                pipelines := eraseOpt p.pipelines name,
                models := some (AList.insert models name m) }
  | .inference i =>
      match p.inferences with
      | none => .error (.attributeError "cannot assign inferences before Pipeline.__init__() call")
      | some infs =>
          .ok { p with
                dict := AList.erase p.dict name,
                models := eraseOpt p.models name,
                parameters := eraseOpt p.parameters name,
                instantiatedTbl := eraseOpt p.instantiatedTbl name,
                pipelines := eraseOpt p.pipelines name,
                inferences := some (AList.insert infs name i) }
  | _ => .ok (superSetattr p name value)

/-- Whether `name` is bound in the models table. -/
def inModels (p : PipelineState) (name : String) : Bool :=
  AList.hasKey (p.models.getD []) name

/-- Whether `name` is bound in the inferences table. -/
def inInferences (p : PipelineState) (name : String) : Bool :=
  AList.hasKey (p.inferences.getD []) name

/-- Whether `name` is bound in the plain attribute namespace (`__dict__`). -/
def inPlainAttrs (p : PipelineState) (name : String) : Bool :=
  AList.hasKey p.dict name

/-- The exclusivity predicate of spec section 3: `name` is present in at
most one of the models table, the inferences table and the plain attribute
namespace. -/
def exclusiveAt (p : PipelineState) (name : String) : Bool :=
  ((cond (inModels p name) 1 0) + (cond (inInferences p name) 1 0)
    + (cond (inPlainAttrs p name) 1 0)) ≤ 1

/-- The observable steps of `Pipeline.to`, in the order the source
performs them. -/
inductive ToEvent
  | subPipelineTo (name : String)
  | modelTo (name : String)
  | inferenceTo (name : String)
  | setSelfDevice
deriving DecidableEq, Repr

/-- Embedding of `Pipeline.to` (pipeline.py lines 239-259): raises
`TypeError` unless the argument is a `torch.device`; otherwise calls
`.to(device)` on every sub-pipeline exposing a `to` attribute, then on
every model, then on every inference wrapper (each embedded as recording
the target device on the sub-object), then executes `self.device = device`
(which goes through `__setattr__` and, the value being neither a module
nor an inference, lands in default attribute storage), and returns the
updated pipeline itself together with the trace of steps taken. -/
def Pipeline.to (p : PipelineState) (arg : AttrValue) :
    Except Exc (PipelineState × List ToEvent) :=
  match arg with
  | .device d =>
      match p.pipelines, p.models, p.inferences with
      | some pipes, some models, some infs =>
          let pipeEvents := (pipes.filter (fun kv => kv.2.hasTo)).map
            (fun kv => ToEvent.subPipelineTo kv.1)
          let pipes' := pipes.map
            (fun kv => if kv.2.hasTo then (kv.1, { kv.2 with device := some d }) else kv)
          let modelEvents := models.map (fun kv => ToEvent.modelTo kv.1)
          let models' := models.map (fun kv => (kv.1, { kv.2 with device := some d }))
          let infEvents := infs.map (fun kv => ToEvent.inferenceTo kv.1)
          let infs' := infs.map (fun kv => (kv.1, { kv.2 with device := some d }))
          let p' := { p with pipelines := some pipes', models := some models',
                             inferences := some infs' }
          match Pipeline.setattr p' "device" (.device d) with
          | .ok p'' => .ok (p'', pipeEvents ++ modelEvents ++ infEvents ++ [ToEvent.setSelfDevice])
          | .error e => .error e
      | _, _, _ => .error (.attributeError "_pipelines")
  | _ => .error (.typeError "`device` must be an instance of `torch.device`")

/-- The collaborator outcomes `__call__`'s auto-instantiation path
consults: the result of `self.default_parameters()` (which in this
repository raises `NotImplementedError` unless a subclass overrides it)
and of `self.instantiate(...)` (the external base method, which signals an
incompatible parameter set with `ValueError`). -/
structure CallEnv where
  default_parameters : Except Exc (AList String)
  instantiate : AList String → Except Exc Unit

/-- The message of the `RuntimeError` raised when `default_parameters()`
signals `NotImplementedError` (pipeline.py lines 216-218). -/
def mustInstantiateMsg : String :=
  "A pipeline must be instantiated with `pipeline.instantiate(parameters)` before it can be applied."

/-- The message of the `RuntimeError` raised when instantiating with the
default parameters fails with `ValueError` (pipeline.py lines 223-226;
the source misspells parameters there and the embedding keeps it). -/
def defaultParamsIncompatibleMsg : String :=
  "A pipeline must be instantiated with `pipeline.instantiate(paramaters)` before it can be applied. Tried to use parameters provided by `pipeline.default_parameters()` but those are not compatible. "

/-- Embedding of the auto-instantiation guard of `Pipeline.__call__`
(pipeline.py lines 211-230): when the pipeline is already instantiated it
proceeds; otherwise `default_parameters()` raising `NotImplementedError`
is converted to a `RuntimeError`, and `instantiate(default_parameters)`
raising `ValueError` is converted to a second `RuntimeError` (whose
message keeps the source's spelling); on success the call proceeds (after
a warning naming the parameters used). -/
def call_guard (instantiated : Bool) (env : CallEnv) : Except Exc Unit :=
  if instantiated then .ok ()
  else
    match env.default_parameters with
    | .error .notImplementedError => .error (.runtimeError mustInstantiateMsg)
    | .error e => .error e
    | .ok default_params =>
        match env.instantiate default_params with
        | .error (.valueError _) => .error (.runtimeError defaultParamsIncompatibleMsg)
        | .error e => .error e
        | .ok _ => .ok ()

/-- The observable steps of `from_pretrained`, in source order. -/
inductive LoadEvent
  | isfileCheck (path : String)
  | openFile (path : String)
  | parseYaml
  | versionCheck
  | classResolution (name : String)
  | constructStep
  | freezeStep
  | instantiateStep
  | loadParamsStep
  | preprocessorsStep
  | deviceStep
deriving DecidableEq, Repr

/-- The parsed YAML checkpoint descriptor as `from_pretrained` consumes
it: `version` (optional), `pipeline.name` (required), `pipeline.params`
(defaulting to the empty mapping), the optional top-level `freeze`,
`params`, `preprocessors` and `device` keys.  Parameter mappings are
abstracted to string-valued association lists since the embedded code
only passes them through to collaborators. -/
structure PipelineConfig where
  version : Option String := none
  name : String := ""
  params : AList String := []
  freeze : Option (AList String) := none
  instantiateParams : Option (AList String) := none
  preprocessors : Option (AList PreprocessorSpec) := none
  device : Option String := none

/-- The collaborators `from_pretrained` consults, as oracles: the
filesystem (`os.path.isfile`), `yaml.load` on the opened file (reached
through the path), `check_version`, `get_class_by_name`, the pipeline
class constructor `Klass(**params)`, the external base methods `freeze`,
`instantiate` and `load_params`, the preprocessor-construction
collaborators, `torch.device` parsing, and the outcome of
`pipeline.to(device)` (whose failures originate in external sub-object
transfers and may be of any exception class). -/
structure LoadEnv where
  isfile : String → Bool
  parse : String → Except Exc PipelineConfig
  checkVersion : String → Except Exc Unit
  getClassByName : String → Except Exc Unit
  construct : String → AList String → Except Exc PipelineState
  freeze : PipelineState → AList String → Except Exc PipelineState
  instantiate : PipelineState → AList String → Except Exc PipelineState
  load_params : PipelineState → String → Except Exc PipelineState
  preproc : PreprocessorEnv
  torchDevice : String → Except Exc TorchDevice
  pipelineTo : PipelineState → TorchDevice → Except Exc PipelineState

/-- Embedding of the device-handling block of `from_pretrained`
(pipeline.py lines 90-96): `pipeline.to(device)` is attempted and only
`RuntimeError` is caught (and printed), in which case `from_pretrained`
carries on with the pipeline as it was; any other exception class
propagates. -/
def from_pretrained_device_step (toOutcome : Except Exc PipelineState)
    (pipeline : PipelineState) : Except Exc PipelineState :=
  match toOutcome with
  | .ok p' => .ok p'
  | .error (.runtimeError _) => .ok pipeline
  | .error e => .error e

/-- Embedding of `Pipeline.from_pretrained` (pipeline.py lines 1-98),
returning both the outcome and the trace of steps reached.  The
`os.path.isfile` guard comes first; only then is the file opened and
parsed as YAML; then the optional version check, class resolution,
construction with `pipeline.params`, the optional `freeze`, `params`
(instantiate) and hyperparameters-file steps, the preprocessors block
(whose resulting mapping is assigned through `__setattr__`), and finally
the device block. `cache_dir` is accepted but unused on this local-only
path, as in the source. -/
def from_pretrained (env : LoadEnv) (checkpoint_path : String)
    (hparams_file : Option String) (cache_dir : String) :
    Except Exc PipelineState × List LoadEvent :=
  if env.isfile checkpoint_path = false then
    (.error (.fileNotFoundError ("Checkpoint file not found: " ++ checkpoint_path)),
      [LoadEvent.isfileCheck checkpoint_path])
  else
    let ev0 := [LoadEvent.isfileCheck checkpoint_path, LoadEvent.openFile checkpoint_path,
      LoadEvent.parseYaml]
    match env.parse checkpoint_path with
    | .error e => (.error e, ev0)
    | .ok config =>
      let vres : Except Exc Unit × List LoadEvent :=
        match config.version with
        | some v => (env.checkVersion v, [LoadEvent.versionCheck])
        | none => (.ok (), [])
      let ev1 := ev0 ++ vres.2
      match vres.1 with
      | .error e => (.error e, ev1)
      | .ok _ =>
        let ev2 := ev1 ++ [LoadEvent.classResolution config.name]
        match env.getClassByName config.name with
        | .error e => (.error e, ev2)
        | .ok _ =>
          let ev3 := ev2 ++ [LoadEvent.constructStep]
          match env.construct config.name config.params with
          | .error e => (.error e, ev3)
          | .ok p0 =>
            let fres : Except Exc PipelineState × List LoadEvent :=
              match config.freeze with
              | some fr => (env.freeze p0 fr, [LoadEvent.freezeStep])
              | none => (.ok p0, [])
            let ev4 := ev3 ++ fres.2
            match fres.1 with
            | .error e => (.error e, ev4)
            | .ok p1 =>
              let ires : Except Exc PipelineState × List LoadEvent :=
                match config.instantiateParams with
                | some ps => (env.instantiate p1 ps, [LoadEvent.instantiateStep])
                | none => (.ok p1, [])
              let ev5 := ev4 ++ ires.2
              match ires.1 with
              | .error e => (.error e, ev5)
              | .ok p2 =>
                let hres : Except Exc PipelineState × List LoadEvent :=
                  match hparams_file with
                  | some hf => (env.load_params p2 hf, [LoadEvent.loadParamsStep])
                  | none => (.ok p2, [])
                let ev6 := ev5 ++ hres.2
                match hres.1 with
                | .error e => (.error e, ev6)
                | .ok p3 =>
                  let pres : Except Exc PipelineState × List LoadEvent :=
                    match config.preprocessors with
                    | some specs =>
                        (match build_preprocessors env.preproc specs with
                         | .error e => .error e
                         | .ok built => Pipeline.setattr p3 "preprocessors" (.preprocMap built),
                         [LoadEvent.preprocessorsStep])
                    | none => (.ok p3, [])
                  let ev7 := ev6 ++ pres.2
                  match pres.1 with
                  | .error e => (.error e, ev7)
                  | .ok p4 =>
                    match config.device with
                    | none => (.ok p4, ev7)
                    | some ds =>
                      match env.torchDevice ds with
                      | .error e => (.error e, ev7 ++ [LoadEvent.deviceStep])
                      | .ok d =>
                        (from_pretrained_device_step (env.pipelineTo p4 d) p4,
                          ev7 ++ [LoadEvent.deviceStep])

/-! ### Supporting lemmas -/

theorem list_range_map_getD {α : Type} (f : Nat → α) (n i : Nat) (d : α) (h : i < n) :
    ((List.range n).map f).getD i d = f i := by
  simp [List.getD_eq_getElem?_getD, List.getElem?_map, List.getElem?_range h]

theorem flatten_replicate_singleton {α : Type} (a : α) (n : Nat) :
    (List.replicate n [a]).flatten = List.replicate n a := by
  induction n with
  | zero => rfl
  | succ k ih => simp [List.replicate_succ, ih]

/-! ### Claim theorems -/

/-- C3: `get_inference` is idempotent on already-constructed inference
wrappers: for every value that is an `Inference` instance, `get_inference`
returns that identical object unchanged, whatever the `Inference`
constructor would do. -/
theorem get_inference_idempotent (ctor : InferenceCtor) (i : InferenceObj) :
    get_inference ctor (InferenceSpec.inference i) = Except.ok i := rfl

/-- C4: `get_devices` replicates or cycles devices to satisfy the
requested count: with zero accelerators, `get_devices none` returns
exactly one CPU device and `get_devices (some n)` returns `n` CPU
entries; with `k > 0` accelerators, `get_devices (some n)` returns `n`
entries cycling through the `k` devices round-robin in index order
(entry `i` is `cuda (i % k)`), and with the count omitted it returns one
entry per available device with no replication. -/
theorem get_devices_replicates_and_cycles :
    get_devices 0 none = [TorchDevice.cpu] ∧
    (∀ n : Nat, get_devices 0 (some n) = List.replicate n TorchDevice.cpu) ∧
    (∀ k n : Nat, 0 < k →
      (get_devices k (some n)).length = n ∧
      ∀ i : Nat, i < n →
        (get_devices k (some n)).getD i TorchDevice.cpu = TorchDevice.cuda (i % k)) ∧
    (∀ k : Nat, 0 < k → get_devices k none = (List.range k).map TorchDevice.cuda) := by
  refine ⟨rfl, ?_, ?_, ?_⟩
  · intro n
    simp [get_devices, flatten_replicate_singleton]
  · intro k n hk
    constructor
    · simp [get_devices, Nat.pos_iff_ne_zero.mp hk]
    · intro i hi
      have hlen : ((List.range k).map TorchDevice.cuda).length = k := by simp
      simp only [get_devices, if_neg (Nat.pos_iff_ne_zero.mp hk)]
      rw [list_range_map_getD _ _ _ _ hi]
      rw [hlen]
      exact list_range_map_getD _ _ _ _ (Nat.mod_lt i hk)
  · intro k hk
    simp [get_devices, Nat.pos_iff_ne_zero.mp hk]

/-- Witness for C4 at the spec's own example: five devices requested with
two accelerators available gives five entries cycling dev0, dev1, dev0,
dev1, dev0. -/
theorem get_devices_replicates_and_cycles_witness :
    (get_devices 2 (some 5)).length = 5 ∧
    (get_devices 2 (some 5)).getD 4 TorchDevice.cpu = TorchDevice.cuda 0 :=
  ⟨(get_devices_replicates_and_cycles.2.2.1 2 5 (by decide)).1,
   (get_devices_replicates_and_cycles.2.2.1 2 5 (by decide)).2 4 (by decide)⟩

/-- C10: when at least one accelerator is available and `n ≤ k`,
`get_devices (some n)` is exactly the first `n` accelerator devices in
ascending index order, with no device repeated; and requesting zero
devices returns the empty list, also in the zero-accelerator case. -/
theorem get_devices_first_n (k n : Nat) (hk : 0 < k) (hn : n ≤ k) :
    get_devices k (some n) = (List.range n).map TorchDevice.cuda ∧
    (get_devices k (some n)).Nodup ∧
    get_devices k (some 0) = [] ∧
    get_devices 0 (some 0) = [] := by
  have hmain : get_devices k (some n) = (List.range n).map TorchDevice.cuda := by
    simp only [get_devices, if_neg (Nat.pos_iff_ne_zero.mp hk)]
    refine List.map_congr_left ?_
    intro i hi
    have hik : i < k := lt_of_lt_of_le (List.mem_range.mp hi) hn
    have hlen : ((List.range k).map TorchDevice.cuda).length = k := by simp
    rw [hlen, Nat.mod_eq_of_lt hik]
    exact list_range_map_getD _ _ _ _ hik
  refine ⟨hmain, ?_, ?_, rfl⟩
  · rw [hmain]
    exact (List.nodup_range k).sublist (List.range_sublist.mpr hn) |>.map
      (fun a b hab => by injection hab)
  · simp [get_devices, Nat.pos_iff_ne_zero.mp hk]

/-- Witness for C10 at `k = 3`, `n = 2`. -/
theorem get_devices_first_n_witness :
    get_devices 3 (some 2) = [TorchDevice.cuda 0, TorchDevice.cuda 1] ∧
    get_devices 0 (some 0) = [] :=
  ⟨(get_devices_first_n 3 2 (by decide) (by decide)).1, (get_devices_first_n 3 2 (by decide) (by decide)).2.2.2⟩

/-- The filesystem for the C2 failing input: `m.pth` is an existing file,
and the module stored there was saved in training mode (fresh torch
modules default to `training = True`, and `torch.load` restores the saved
mode). -/
def fsTrainingSaved : FileSystem :=
  { isfile := fun p => p == "m.pth",
    load := fun _ => { id := 7, training := true, device := none } }

/-- C2, evaluated at the failing input: `get_model` succeeds on the string
path `m.pth` but hands back the stored module still in training mode —
the source's `model.eval()` (getter.py line 67) sits after an
`if`/`elif`/`else` in which every branch returns or raises, so it never
runs and no returned model is put into evaluation mode. -/
theorem get_model_returns_training_module :
    get_model fsTrainingSaved (ModelSpec.str "m.pth")
      = Except.ok { id := 7, training := true, device := none } ∧
    ({ id := 7, training := true, device := none } : TorchModule).training = true ∧
    (TorchModule.evalMode { id := 7, training := true, device := none }).training = false :=
  ⟨rfl, rfl, rfl⟩

/-- C1: `from_pretrained` on a checkpoint path that is not an existing
file fails with `FileNotFoundError` before the file is opened or parsed
as YAML, regardless of the other arguments. -/
theorem from_pretrained_missing_file (env : LoadEnv) (path : String)
    (hparams_file : Option String) (cache_dir : String)
    (h : env.isfile path = false) :
    (from_pretrained env path hparams_file cache_dir).1
        = Except.error (Exc.fileNotFoundError ("Checkpoint file not found: " ++ path)) ∧
    LoadEvent.openFile path ∉ (from_pretrained env path hparams_file cache_dir).2 ∧
    LoadEvent.parseYaml ∉ (from_pretrained env path hparams_file cache_dir).2 := by
  simp [from_pretrained, h]

/-- An inert preprocessor-construction environment: class resolution and
construction succeed, and the file finder fails with its designed
`FileNotFoundError`. -/
def inertPreprocessorEnv : PreprocessorEnv :=
  { getClassByName := fun _ => .ok (),
    constructClass := fun _ _ => .ok (),
    fileFinderNew := fun _ => .error (.fileNotFoundError "no database descriptor") }

/-- A load environment in which no file exists; all other collaborators
are inert. -/
def emptyLoadEnv : LoadEnv :=
  { isfile := fun _ => false,
    parse := fun _ => .error (.otherError "never reached"),
    checkVersion := fun _ => .ok (),
    getClassByName := fun _ => .ok (),
    construct := fun _ _ => .ok initPipeline,
    freeze := fun p _ => .ok p,
    instantiate := fun p _ => .ok p,
    load_params := fun p _ => .ok p,
    preproc := inertPreprocessorEnv,
    torchDevice := fun _ => .ok TorchDevice.cpu,
    pipelineTo := fun p _ => .ok p }

/-- Witness for C1 at the concrete missing path `nope.yml`. -/
theorem from_pretrained_missing_file_witness :
    (from_pretrained emptyLoadEnv "nope.yml" (some "h.yml") "cache").1
        = Except.error (Exc.fileNotFoundError ("Checkpoint file not found: " ++ "nope.yml")) ∧
    LoadEvent.openFile "nope.yml" ∉ (from_pretrained emptyLoadEnv "nope.yml" (some "h.yml") "cache").2 ∧
    LoadEvent.parseYaml ∉ (from_pretrained emptyLoadEnv "nope.yml" (some "h.yml") "cache").2 :=
  from_pretrained_missing_file emptyLoadEnv "nope.yml" (some "h.yml") "cache" rfl

/-- C7: calling an uninstantiated pipeline whose `default_parameters`
raises `NotImplementedError` fails with the single user-facing
`RuntimeError` ("must be instantiated before use") and never propagates
the underlying `NotImplementedError`; and when default parameters exist
but `instantiate` rejects them with `ValueError`, the call likewise fails
with the corresponding `RuntimeError` rather than the validation error. -/
theorem call_guard_escalates (env : CallEnv) :
    (env.default_parameters = Except.error Exc.notImplementedError →
      call_guard false env = Except.error (Exc.runtimeError mustInstantiateMsg) ∧
      call_guard false env ≠ Except.error Exc.notImplementedError) ∧
    (∀ ps : AList String, ∀ msg : String,
      env.default_parameters = Except.ok ps →
      env.instantiate ps = Except.error (Exc.valueError msg) →
      call_guard false env
        = Except.error (Exc.runtimeError defaultParamsIncompatibleMsg) ∧
      call_guard false env ≠ Except.error (Exc.valueError msg)) := by
  constructor
  · intro h
    have he : call_guard false env = Except.error (Exc.runtimeError mustInstantiateMsg) := by
      simp [call_guard, h]
    exact ⟨he, by rw [he]; simp⟩
  · intro ps msg h1 h2
    have he : call_guard false env
        = Except.error (Exc.runtimeError defaultParamsIncompatibleMsg) := by
      simp [call_guard, h1, h2]
    exact ⟨he, by rw [he]; simp⟩

/-- A pipeline with no `default_parameters` override. -/
def noDefaultsEnv : CallEnv :=
  { default_parameters := .error .notImplementedError,
    instantiate := fun _ => .ok () }

/-- A pipeline whose default parameters exist but are rejected by
`instantiate`. -/
def badDefaultsEnv : CallEnv :=
  { default_parameters := .ok [("onset", "0.5")],
    instantiate := fun _ => .error (.valueError "unexpected parameter") }

/-- Witness for C7 on both concrete scenarios. -/
theorem call_guard_escalates_witness :
    call_guard false noDefaultsEnv = Except.error (Exc.runtimeError mustInstantiateMsg) ∧
    call_guard false badDefaultsEnv
      = Except.error (Exc.runtimeError defaultParamsIncompatibleMsg) :=
  ⟨((call_guard_escalates noDefaultsEnv).1 rfl).1,
   ((call_guard_escalates badDefaultsEnv).2 [("onset", "0.5")] "unexpected parameter" rfl rfl).1⟩

/-- A preprocessor-construction environment in which the file finder
fails with an exception other than `FileNotFoundError`: the database
file exists but is malformed, so its construction raises a YAML parse
error. -/
def ppYamlFailEnv : PreprocessorEnv :=
  { getClassByName := fun _ => .ok (),
    constructClass := fun _ _ => .ok (),
    fileFinderNew := fun _ => .error (.otherError "yaml.scanner.ScannerError: malformed database file") }

/-- C8 counterexample: the `try` around `FileFinder(database_yml=...)`
(pipeline.py lines 77-86) catches only `FileNotFoundError`, so when
file-finder construction fails with any other exception class — here a
YAML parse error on an existing malformed database file — the spec is
not kept as a literal path template: the failure propagates. -/
theorem build_preprocessor_other_failure_propagates :
    build_preprocessor ppYamlFailEnv (PreprocessorSpec.str "/path/to/malformed.yml")
      = Except.error (Exc.otherError "yaml.scanner.ScannerError: malformed database file") := rfl

/-- C8 as amended: the preprocessor kind is selected by structural
inspection: a dict with a `name` key always takes precedence — for every
file-finder behaviour, including one that would accept the spec — and is
built as a dynamic-class instance (given that class resolution and
construction succeed); otherwise file-finder construction is attempted:
on success the spec becomes a file finder, and on its
`FileNotFoundError` failure the spec is kept as a literal path template
string (other construction failures propagate, per the
counterexample). -/
theorem build_preprocessor_selection
    (env : PreprocessorEnv) (entries : AList String) (className : String)
    (hname : AList.lookup entries "name" = some className)
    (hcls : env.getClassByName className = Except.ok ())
    (hctor : env.constructClass className (AList.lookup entries "params") = Except.ok ())
    (s : String) (msg : String) :
    build_preprocessor env (PreprocessorSpec.dict entries)
        = Except.ok (Preprocessor.dynamicInstance className (AList.lookup entries "params")) ∧
    (env.fileFinderNew s = Except.ok () →
      build_preprocessor env (PreprocessorSpec.str s)
        = Except.ok (Preprocessor.fileFinder s)) ∧
    (env.fileFinderNew s = Except.error (Exc.fileNotFoundError msg) →
      build_preprocessor env (PreprocessorSpec.str s)
        = Except.ok (Preprocessor.template s)) := by
  refine ⟨?_, ?_, ?_⟩
  · simp [build_preprocessor, hname, hcls, hctor]
  · intro h
    simp [build_preprocessor, h]
  · intro h
    simp [build_preprocessor, h]

/-- A preprocessor-construction environment whose file finder accepts
every path. -/
def ppAcceptAllEnv : PreprocessorEnv :=
  { getClassByName := fun _ => .ok (),
    constructClass := fun _ _ => .ok (),
    fileFinderNew := fun _ => .ok () }

/-- Witness for the amended C8: a dict spec is built as a dynamic-class
instance even under a file finder that would have accepted it; a plain
string is accepted by that file finder; and under the inert environment
(whose file finder raises `FileNotFoundError`) a plain string stays a
template. -/
theorem build_preprocessor_selection_witness :
    build_preprocessor ppAcceptAllEnv
        (PreprocessorSpec.dict [("name", "pyannote.database.FileFinder")])
      = Except.ok (Preprocessor.dynamicInstance "pyannote.database.FileFinder" none) ∧
    build_preprocessor ppAcceptAllEnv (PreprocessorSpec.str "/path/to/database.yml")
      = Except.ok (Preprocessor.fileFinder "/path/to/database.yml") ∧
    build_preprocessor inertPreprocessorEnv (PreprocessorSpec.str "/path/to/file.wav")
      = Except.ok (Preprocessor.template "/path/to/file.wav") := by
  refine ⟨?_, ?_, ?_⟩
  · exact (build_preprocessor_selection ppAcceptAllEnv
      [("name", "pyannote.database.FileFinder")] "pyannote.database.FileFinder"
      rfl rfl rfl "x" "m").1
  · exact (build_preprocessor_selection ppAcceptAllEnv
      [("name", "unused")] "unused" rfl rfl rfl "/path/to/database.yml" "m").2.1 rfl
  · exact (build_preprocessor_selection inertPreprocessorEnv
      [("name", "unused")] "unused" rfl rfl rfl "/path/to/file.wav"
      "no database descriptor").2.2 rfl

/-- C9: a successful `to(d)` propagates the transfer to the
sub-pipelines (those exposing a `to` attribute), then the sub-models,
then the sub-inference wrappers, in that order; then the pipeline records
`d` as its own current `device` attribute; and the returned value is the
pipeline object itself (the updated self, with its sub-object tables
intact), making the call fluent/chainable. -/
theorem to_propagation_order (p : PipelineState) (d : TorchDevice)
    (pipes : AList SubPipeline) (models : AList TorchModule) (infs : AList InferenceObj)
    (h1 : p.pipelines = some pipes) (h2 : p.models = some models)
    (h3 : p.inferences = some infs) :
    ∃ p' : PipelineState,
      Pipeline.to p (AttrValue.device d)
        = Except.ok (p',
            ((pipes.filter (fun kv => kv.2.hasTo)).map (fun kv => ToEvent.subPipelineTo kv.1))
            ++ (models.map (fun kv => ToEvent.modelTo kv.1))
            ++ (infs.map (fun kv => ToEvent.inferenceTo kv.1))
            ++ [ToEvent.setSelfDevice]) ∧
      AList.lookup p'.dict "device" = some (AttrValue.device d) ∧
      (p'.models.getD []).map Prod.fst = models.map Prod.fst ∧
      (p'.inferences.getD []).map Prod.fst = infs.map Prod.fst ∧
      (p'.pipelines.getD []).map Prod.fst = pipes.map Prod.fst := by
  simp only [Pipeline.to, h1, h2, h3, Pipeline.setattr, superSetattr]
  refine ⟨_, rfl, ?_, ?_, ?_, ?_⟩
  · exact AList.lookup_insert_self p.dict "device" (AttrValue.device d)
  · simp
  · simp
  · simp only [Option.getD_some, List.map_map]
    refine List.map_congr_left ?_
    intro kv _
    by_cases h : kv.2.hasTo <;> simp [h]

/-- A concrete pipeline holding one sub-pipeline, one model and one
inference wrapper. -/
def toWitnessState : PipelineState :=
  { dict := [("alpha", AttrValue.scalar 3)],
    parameters := some [], instantiatedTbl := some [],
    pipelines := some [("sub", { id := 1, hasTo := true, device := none })],
    models := some [("seg", { id := 2, training := false, device := none })],
    inferences := some [("inf", { id := 3, device := none })] }

/-- Witness for C9 on `toWitnessState`. -/
theorem to_propagation_order_witness :
    ∃ p' : PipelineState,
      Pipeline.to toWitnessState (AttrValue.device (TorchDevice.cuda 0))
        = Except.ok (p',
            [ToEvent.subPipelineTo "sub", ToEvent.modelTo "seg",
             ToEvent.inferenceTo "inf", ToEvent.setSelfDevice]) ∧
      AList.lookup p'.dict "device" = some (AttrValue.device (TorchDevice.cuda 0)) := by
  obtain ⟨p', hto, hdev, -, -, -⟩ :=
    to_propagation_order toWitnessState (TorchDevice.cuda 0) _ _ _ rfl rfl rfl
  exact ⟨p', by simpa using hto, hdev⟩

/-- The module assigned to `x` in the C5 scenario. -/
def mCex : TorchModule := { id := 1, training := true, device := none }

/-- State after assigning the module `mCex` to attribute `x` on a freshly
initialized pipeline. -/
def c5Step1 : PipelineState :=
  match Pipeline.setattr initPipeline "x" (AttrValue.module mCex) with
  | .ok p => p
  | .error _ => initPipeline

/-- State after then assigning the plain scalar `0` to the same attribute
`x`. -/
def c5Step2 : PipelineState :=
  match Pipeline.setattr c5Step1 "x" (AttrValue.scalar 0) with
  | .ok p => p
  | .error _ => c5Step1

/-- C5 counterexample: after assigning a module to `x` and then a plain
scalar to `x`, the name `x` is present both in the models table and among
the plain attributes, so the claimed exclusivity invariant is violated
(and `x` is not absent from the models table). -/
theorem setattr_exclusivity_violated :
    exclusiveAt c5Step2 "x" = false ∧
    inModels c5Step2 "x" = true ∧
    inPlainAttrs c5Step2 "x" = true := by decide

/-- C5 as amended: a module assignment to `x` removes `x` from the plain
attributes and the inferences table (exclusivity holds at that point),
but a subsequent plain-scalar assignment to `x` stores `x` among the
plain attributes without removing it from the models table, leaving `x`
present in both and the exclusivity invariant false. -/
theorem setattr_module_then_scalar (p p1 p2 : PipelineState) (x : String)
    (m : TorchModule) (v : Int)
    (hd : (p.dict.map Prod.fst).Nodup)
    (hi : (((p.inferences.getD []).map Prod.fst) : List String).Nodup)
    (h1 : Pipeline.setattr p x (AttrValue.module m) = Except.ok p1)
    (h2 : Pipeline.setattr p1 x (AttrValue.scalar v) = Except.ok p2) :
    inModels p1 x = true ∧ inInferences p1 x = false ∧ inPlainAttrs p1 x = false ∧
    inPlainAttrs p2 x = true ∧ inModels p2 x = true ∧ inInferences p2 x = false ∧
    exclusiveAt p2 x = false := by
  cases hm : p.models with
  | none => simp [Pipeline.setattr, hm] at h1
  | some models =>
    simp only [Pipeline.setattr, hm, Except.ok.injEq] at h1
    subst h1
    simp only [Pipeline.setattr, superSetattr, Except.ok.injEq] at h2
    subst h2
    have hm1 : inModels
        { p with dict := AList.erase p.dict x,
                 inferences := eraseOpt p.inferences x,
                 parameters := eraseOpt p.parameters x,
                 instantiatedTbl := eraseOpt p.instantiatedTbl x,
                 pipelines := eraseOpt p.pipelines x,
                 models := some (AList.insert models x m) } x = true := by
      simp [inModels, AList.hasKey, AList.lookup_insert_self]
    have hi1 : inInferences
        { p with dict := AList.erase p.dict x,
                 inferences := eraseOpt p.inferences x,
                 parameters := eraseOpt p.parameters x,
                 instantiatedTbl := eraseOpt p.instantiatedTbl x,
                 pipelines := eraseOpt p.pipelines x,
                 models := some (AList.insert models x m) } x = false := by
      simp only [inInferences, AList.hasKey, eraseOpt]
      cases hinf : p.inferences with
      | none => simp [AList.lookup]
      | some infs =>
        have : (infs.map Prod.fst).Nodup := by
          rw [hinf] at hi
          simpa using hi
        simp [AList.lookup_erase_self infs x this]
    have hp1 : inPlainAttrs
        { p with dict := AList.erase p.dict x,
                 inferences := eraseOpt p.inferences x,
                 parameters := eraseOpt p.parameters x,
                 instantiatedTbl := eraseOpt p.instantiatedTbl x,
                 pipelines := eraseOpt p.pipelines x,
                 models := some (AList.insert models x m) } x = false := by
      simp [inPlainAttrs, AList.hasKey, AList.lookup_erase_self p.dict x hd]
    refine ⟨hm1, hi1, hp1, ?_, ?_, ?_, ?_⟩
    · simp [inPlainAttrs, AList.hasKey, AList.lookup_insert_self]
    · simpa [inModels] using hm1
    · simpa [inInferences] using hi1
    · simp only [exclusiveAt]
      have e1 : inModels
          { p with dict := AList.insert (AList.erase p.dict x) x (AttrValue.scalar v),
                   inferences := eraseOpt p.inferences x,
                   parameters := eraseOpt p.parameters x,
                   instantiatedTbl := eraseOpt p.instantiatedTbl x,
                   pipelines := eraseOpt p.pipelines x,
                   models := some (AList.insert models x m) } x = true := by
        simpa [inModels] using hm1
      have e2 : inInferences
          { p with dict := AList.insert (AList.erase p.dict x) x (AttrValue.scalar v),
                   inferences := eraseOpt p.inferences x,
                   parameters := eraseOpt p.parameters x,
                   instantiatedTbl := eraseOpt p.instantiatedTbl x,
                   pipelines := eraseOpt p.pipelines x,
                   models := some (AList.insert models x m) } x = false := by
        simpa [inInferences] using hi1
      have e3 : inPlainAttrs
          { p with dict := AList.insert (AList.erase p.dict x) x (AttrValue.scalar v),
                   inferences := eraseOpt p.inferences x,
                   parameters := eraseOpt p.parameters x,
                   instantiatedTbl := eraseOpt p.instantiatedTbl x,
                   pipelines := eraseOpt p.pipelines x,
                   models := some (AList.insert models x m) } x = true := by
        simp [inPlainAttrs, AList.hasKey, AList.lookup_insert_self]
      rw [e1, e2, e3]
      decide

/-- Witness for the amended C5 on a freshly initialized pipeline. -/
theorem setattr_module_then_scalar_witness :
    inModels c5Step1 "x" = true ∧ inInferences c5Step1 "x" = false ∧
    inPlainAttrs c5Step1 "x" = false ∧
    inPlainAttrs c5Step2 "x" = true ∧ inModels c5Step2 "x" = true ∧
    inInferences c5Step2 "x" = false ∧ exclusiveAt c5Step2 "x" = false :=
  setattr_module_then_scalar initPipeline c5Step1 c5Step2 "x" mCex 0
    (by decide) (by decide) rfl rfl

/-- A load environment whose descriptor carries a `device` key and whose
device transfer fails with a `ValueError` (an exception class the source
does not catch). -/
def deviceFailEnv : LoadEnv :=
  { isfile := fun _ => true,
    parse := fun _ => .ok { name := "P", device := some "cuda" },
    checkVersion := fun _ => .ok (),
    getClassByName := fun _ => .ok (),
    construct := fun _ _ => .ok initPipeline,
    freeze := fun p _ => .ok p,
    instantiate := fun p _ => .ok p,
    load_params := fun p _ => .ok p,
    preproc := inertPreprocessorEnv,
    torchDevice := fun _ => .ok (TorchDevice.cuda 0),
    pipelineTo := fun _ _ => .error (.valueError "transfer failed") }

/-- C6 counterexample: the source catches only `RuntimeError` around
`pipeline.to(device)` (pipeline.py lines 93-96), so a device-transfer
failure of any other exception class — here a `ValueError` — propagates
out of `from_pretrained` instead of being caught and reported, and no
pipeline is returned. -/
theorem from_pretrained_device_error_propagates :
    (from_pretrained deviceFailEnv "ckpt.yml" none "cache").1
      = Except.error (Exc.valueError "transfer failed") := rfl

/-- C6 as amended: when the descriptor contains a `device` key and
`pipeline.to(device)` raises a `RuntimeError`, the failure is caught and
reported rather than propagated, and `from_pretrained` still returns the
wired pipeline on its prior/default device; device-transfer failures of
other exception classes propagate. -/
theorem from_pretrained_catches_runtime_device_failure
    (env : LoadEnv) (path cd : String) (config : PipelineConfig)
    (p0 : PipelineState) (ds : String) (d : TorchDevice) (msg : String)
    (h1 : env.isfile path = true)
    (h2 : env.parse path = Except.ok config)
    (h3 : config.version = none)
    (h4 : env.getClassByName config.name = Except.ok ())
    (h5 : env.construct config.name config.params = Except.ok p0)
    (h6 : config.freeze = none)
    (h7 : config.instantiateParams = none)
    (h8 : config.preprocessors = none)
    (h9 : config.device = some ds)
    (h10 : env.torchDevice ds = Except.ok d)
    (h11 : env.pipelineTo p0 d = Except.error (Exc.runtimeError msg)) :
    (from_pretrained env path none cd).1 = Except.ok p0 := by
  simp [from_pretrained, h1, h2, h3, h4, h5, h6, h7, h8, h9, h10, h11,
    from_pretrained_device_step]

/-- The same environment as `deviceFailEnv`, but with the transfer
failing with a `RuntimeError` (for example CUDA running out of memory). -/
def deviceRuntimeFailEnv : LoadEnv :=
  { deviceFailEnv with
    pipelineTo := fun _ _ => .error (.runtimeError "CUDA out of memory") }

/-- Witness for the amended C6: the `RuntimeError` is swallowed and the
wired pipeline is still returned. -/
theorem from_pretrained_catches_runtime_device_failure_witness :
    (from_pretrained deviceRuntimeFailEnv "ckpt.yml" none "cache").1
      = Except.ok initPipeline :=
  from_pretrained_catches_runtime_device_failure deviceRuntimeFailEnv "ckpt.yml" "cache"
    { name := "P", device := some "cuda" } initPipeline "cuda" (TorchDevice.cuda 0)
    "CUDA out of memory" rfl rfl rfl rfl rfl rfl rfl rfl rfl rfl rfl

end PyannoteAudio
